import Mathlib

/-!
Verification development for the browser-chat widget.

Shallow embedding of the repository's core:
  * `src/storage-manager.js` — record validation and persistence,
  * `src/model-manager.js`   — prompt queue, streaming with timeout, embeddings,
  * the chat component (unnamed source file) — session state machine,
    submission, cancellation, completion and save orchestration.

JS strings are modelled as Lean `String`; `String.prototype.trim` is
modelled as stripping leading and trailing whitespace characters.
Timestamps (`Date.now()`, `Date` objects) are modelled as `Nat`
milliseconds.  IndexedDB is modelled as an in-memory list of records
with an optional capacity (`quota`) after which `add` fails with a
quota error, mirroring `QuotaExceededError`.
-/

set_option maxRecDepth 4000

/-- Model of JS `String.prototype.trim` on the character list:
drop leading whitespace, then trailing whitespace. -/
def trimChars (l : List Char) : List Char :=
  ((l.dropWhile Char.isWhitespace).reverse.dropWhile Char.isWhitespace).reverse

/-- Model of JS `String.prototype.trim`. -/
def jsTrim (s : String) : String := ⟨trimChars s.data⟩

/-- `ConversationPair` record shape (storage-manager.js, saveConversation doc
comment lines 102-111).  `id` and `timestamp` are both derived from
`Date.now()`; the embedding is an optional numeric vector (`Float32Array`
in the source — only its length is ever inspected). -/
structure ConversationPair where
  id : Nat
  prompt : String
  response : String
  embedding : Option (List Float)
  modelVersion : String
  timestamp : Nat

/-- The embedding check of `validateConversationPair` (lines 77-84):
when an embedding is present its length must be exactly 384. -/
def embeddingBad : Option (List Float) → Bool
  | none => false
  | some e => e.length != 384

/-- `validateConversationPair` (storage-manager.js lines 50-100), with the
checks in source order.  JS falsiness of `id`/`prompt`/`response`/
`modelVersion` is modelled as `= 0` / `= ""`; the `typeof`/`instanceof`
checks are vacuous in the typed model. -/
def validateConversationPair (p : ConversationPair) (now : Nat) : Except String Unit :=
  if p.id = 0 then Except.error "ConversationPair must have numeric id (timestamp)"
  else if p.prompt = "" then Except.error "ConversationPair must have prompt string"
  else if p.response = "" then Except.error "ConversationPair must have response string"
  else if (jsTrim p.prompt).length < 1 ∨ 10000 < (jsTrim p.prompt).length then
    Except.error "Prompt length must be 1-10000 characters"
  else if (jsTrim p.response).length < 1 ∨ 100000 < (jsTrim p.response).length then
    Except.error "Response length must be 1-100000 characters"
  else if embeddingBad p.embedding then
    Except.error "Embedding must have 384 dimensions"
  else if p.modelVersion = "" then Except.error "ConversationPair must have modelVersion string"
  else if now < p.timestamp then Except.error "Timestamp cannot be in the future"
  else Except.ok ()

/-- The non-embedding field conditions of `validateConversationPair`,
stated positively. -/
def otherChecksOk (p : ConversationPair) (now : Nat) : Prop :=
  p.id ≠ 0 ∧ p.prompt ≠ "" ∧ p.response ≠ "" ∧
  1 ≤ (jsTrim p.prompt).length ∧ (jsTrim p.prompt).length ≤ 10000 ∧
  1 ≤ (jsTrim p.response).length ∧ (jsTrim p.response).length ≤ 100000 ∧
  p.modelVersion ≠ "" ∧ p.timestamp ≤ now

instance (p : ConversationPair) (now : Nat) : Decidable (otherChecksOk p now) := by
  unfold otherChecksOk; infer_instance

/-- All conditions of `validateConversationPair`, stated positively. -/
def checksOk (p : ConversationPair) (now : Nat) : Prop :=
  otherChecksOk p now ∧ embeddingBad p.embedding = false

instance (p : ConversationPair) (now : Nat) : Decidable (checksOk p now) := by
  unfold checksOk; infer_instance

/-- The IndexedDB object store: stored records plus an optional capacity
(model of the storage quota: once `quota` records are stored, `add`
fails with `QuotaExceededError`). -/
structure Store where
  records : List ConversationPair
  quota : Option Nat

/-- Whether the backing store is out of quota. -/
def storeFull (s : Store) : Bool :=
  match s.quota with
  | none => false
  | some q => decide (q ≤ s.records.length)

/-- Outcome of `saveConversation` (storage-manager.js lines 113-156):
the source resolves `{success, error?}`; the error is a validation
error, the distinguishable `QuotaExceededError`, or a generic failure. -/
inductive SaveOutcome where
  | ok : SaveOutcome
  | validationError (msg : String) : SaveOutcome
  | quotaExceeded (msg : String) : SaveOutcome
  | addFailed (msg : String) : SaveOutcome
  deriving DecidableEq

/-- The quota error message built at storage-manager.js lines 132-134. -/
def quotaMsg : String :=
  "Storage quota exceeded. Clear history to continue saving conversations."

/-- `saveConversation` (storage-manager.js lines 113-156): validate first
(validation failures are returned before the store is touched), then
`objectStore.add`, mapping `QuotaExceededError` to a distinguishable
result and any other add failure (e.g. duplicate key `ConstraintError`)
to a generic failure. -/
def saveConversation (store : Store) (p : ConversationPair) (now : Nat) :
    Store × SaveOutcome :=
  match validateConversationPair p now with
  | Except.error msg => (store, SaveOutcome.validationError msg)
  | Except.ok _ =>
      if storeFull store then (store, SaveOutcome.quotaExceeded quotaMsg)
      else if store.records.any (fun r => r.id == p.id) then
        (store, SaveOutcome.addFailed "Failed to save conversation: ConstraintError")
      else ({ store with records := store.records ++ [p] }, SaveOutcome.ok)

/-- `clearHistory` (storage-manager.js lines 206-239): count the records,
then clear the store, resolving the count. -/
def clearHistory (s : Store) : Store × Nat :=
  ({ s with records := [] }, s.records.length)

/-- `getConversationCount` (storage-manager.js lines 245-265). -/
def getConversationCount (s : Store) : Nat := s.records.length

/-! ## Model manager (model-manager.js) -/

/-- `queuePrompt` (model-manager.js lines 149-151): append to the queue. -/
def queuePrompt (queue : List String) (prompt : String) : List String :=
  queue ++ [prompt]

/-- `getQueuedPrompts` (model-manager.js lines 157-161): return the queued
prompts and clear the queue. -/
def getQueuedPrompts (queue : List String) : List String × List String :=
  (queue, [])

/-- The fallback embedding produced when the embedding model is not loaded
(model-manager.js lines 264-276): a random 384-dimension unit vector.
The numeric values are random at runtime; only the length (384) is ever
inspected, so the model fixes the values to 0. -/
def fallbackEmbedding : List Float := List.replicate 384 0.0

/-- `generateEmbedding` (model-manager.js lines 263-296), with the external
pipeline call abstracted as `pipelineResult`.  Not-loaded: warn (second
component `true`) and return the fallback vector.  Loaded: return the
pipeline's data, or rethrow its failure wrapped in a message. -/
def generateEmbedding (embLoaded : Bool) (pipelineResult : Except String (List Float)) :
    Except String (List Float) × Bool :=
  if embLoaded then
    match pipelineResult with
    | Except.ok data => (Except.ok data, false)
    | Except.error msg => (Except.error ("Failed to generate embedding: " ++ msg), false)
  else
    (Except.ok fallbackEmbedding, true)

/-- Outcome of consuming the timeout-wrapped token stream. -/
inductive StreamOutcome where
  | completed (tokens : List String) : StreamOutcome
  | timedOut (delivered : List String) : StreamOutcome
  | pending (delivered : List String) : StreamOutcome
  deriving DecidableEq

/-- Consumption loop of `generateTokensWithTimeout` (model-manager.js lines
243-255).  `arrivals` lists, in order, each fragment of the underlying
stream together with its elapsed time (ms since the first pull) at the
moment it is received; `completes` says whether the underlying stream
terminates after those fragments.  The source checks the clock only when
a fragment arrives: a fragment received past the deadline triggers
`cancelGeneration()` (second component `true`) and the `Timeout` throw
without yielding it; with the fragment list exhausted and the stream not
completing, the consumer is left waiting (`pending`). -/
def withTimeoutGo (timeoutMs : Nat) (completes : Bool) :
    List (Nat × String) → List String → StreamOutcome × Bool
  | [], acc => (if completes then StreamOutcome.completed acc else StreamOutcome.pending acc, false)
  | (t, tok) :: rest, acc =>
      if timeoutMs < t then (StreamOutcome.timedOut acc, true)
      else withTimeoutGo timeoutMs completes rest (acc ++ [tok])

/-- `generateTokensWithTimeout` run from the first pull. -/
def withTimeoutRun (timeoutMs : Nat) (arrivals : List (Nat × String)) (completes : Bool) :
    StreamOutcome × Bool :=
  withTimeoutGo timeoutMs completes arrivals []

/-! ## Chat component (the unnamed source file) -/

/-- `this.state.visibility` values (chat component line 23). -/
inductive Visibility where
  | hidden : Visibility
  | inputVisible : Visibility
  | generating : Visibility
  | responseVisible : Visibility
  deriving DecidableEq

/-- The component's session state (`this.state`, constructor lines 22-30)
plus the two DOM text buffers the orchestrator reads and writes
(`this._input.value` and `this._response.textContent`).  CSS classes,
focus timers and event dispatches are not modelled.  `focusedElement`
is initialised to `'none'` and never written by the source, so it is
omitted. -/
structure ChatState where
  visibility : Visibility
  currentPrompt : String
  currentResponse : String
  isGenerating : Bool
  generationAborted : Bool
  errorMessage : Option String
  inputValue : String
  responseText : String
  deriving DecidableEq

/-- The constructor's initial state. -/
def initialChatState : ChatState :=
  { visibility := Visibility.hidden
    currentPrompt := ""
    currentResponse := ""
    isGenerating := false
    generationAborted := false
    errorMessage := none
    inputValue := ""
    responseText := "" }

/-- Marker for the loading indicator markup written while a prompt is
queued behind model loading (chat component line 425). -/
def loadingModelIndicator : String := "Loading model..."

/-- Marker for the loading indicator markup written when generation starts
(chat component line 444). -/
def generatingIndicator : String := "Generating response..."

/-- `_showError` (chat component lines 584-594): record the message, move
to `response-visible`, and paint the error text. -/
def showError (st : ChatState) (message : String) : ChatState :=
  { st with errorMessage := some message
            visibility := Visibility.responseVisible
            responseText := "Error: " ++ message }

/-- `activate` (chat component lines 350-370): show the input
unconditionally. -/
def activate (st : ChatState) : ChatState :=
  { st with visibility := Visibility.inputVisible }

/-- `hide` (chat component lines 375-394): unconditionally go hidden and
clear the prompt, response, error and both text buffers.  The body never
touches the model manager, so the second component (gateway cancel
invoked) is `false`. -/
def hideOp (st : ChatState) : ChatState × Bool :=
  ({ st with visibility := Visibility.hidden
             currentPrompt := ""
             currentResponse := ""
             errorMessage := none
             inputValue := ""
             responseText := "" }, false)

/-- `_cancelGeneration` (chat component lines 561-579): the state effects
of user cancellation — `modelManager.cancelGeneration()` is invoked by
this path (tracked by its callers), generation flags are updated, the
response area is cleared, and visibility returns to `input-visible`.
`currentPrompt` and `currentResponse` are left untouched. -/
def cancelGenerationState (st : ChatState) : ChatState :=
  { st with isGenerating := false
            generationAborted := true
            responseText := ""
            visibility := Visibility.inputVisible }

/-- Abstract keyboard inputs of `_handleKeyboard`: the activation hotkey
(Cmd-K / Ctrl-K), Escape, anything else. -/
inductive KeyEvent where
  | hotkey : KeyEvent
  | escape : KeyEvent
  | other : KeyEvent

/-- `_handleKeyboard` (chat component lines 299-322).  The second component
records whether the gateway's cancel was invoked (it is exactly the
`_cancelGeneration` route). -/
def handleKeyboard (st : ChatState) (ev : KeyEvent) : ChatState × Bool :=
  match ev with
  | KeyEvent.hotkey => (activate st, false)
  | KeyEvent.escape =>
      if st.visibility ≠ Visibility.hidden then
        if st.isGenerating then (cancelGenerationState st, true) else hideOp st
      else (st, false)
  | KeyEvent.other => (st, false)

/-- `_handleClickOutside` (chat component lines 327-335): hide only when
the interaction is outside the widget and no generation is running. -/
def handleClickOutside (st : ChatState) (clickedInside : Bool) : ChatState × Bool :=
  if !clickedInside && !st.isGenerating then hideOp st else (st, false)

/-- The action `_submitPrompt` ends up taking. -/
inductive SubmitAction where
  | ignored : SubmitAction
  | errorShown : SubmitAction
  | enqueued (prompt : String) : SubmitAction
  | generate (prompt : String) : SubmitAction
  deriving DecidableEq

/-- `_submitPrompt` (chat component lines 399-457) up to the hand-off to
`_generateResponse`: trim the input; an empty prompt is silently ignored
(plain `return`, no error, no transition); a prompt longer than 10,000
characters goes through `_showError` (which moves visibility to
`response-visible`); otherwise the error state is cleared, the working
buffers are set, and the prompt is either queued (model not loaded,
visibility `generating`, loading indicator shown, `isGenerating` left
unchanged) or generation starts (visibility `generating`,
`isGenerating := true`). -/
def submitPrompt (st : ChatState) (queue : List String) (llmLoaded : Bool) :
    ChatState × List String × SubmitAction :=
  if jsTrim st.inputValue = "" then (st, queue, SubmitAction.ignored)
  else if 10000 < (jsTrim st.inputValue).length then
    (showError st "Prompt too long (max 10,000 characters)", queue, SubmitAction.errorShown)
  else if !llmLoaded then
    ({ st with errorMessage := none
               currentPrompt := jsTrim st.inputValue
               currentResponse := ""
               visibility := Visibility.generating
               responseText := loadingModelIndicator },
     queuePrompt queue (jsTrim st.inputValue),
     SubmitAction.enqueued (jsTrim st.inputValue))
  else
    ({ st with errorMessage := none
               currentPrompt := jsTrim st.inputValue
               currentResponse := ""
               visibility := Visibility.generating
               isGenerating := true
               responseText := generatingIndicator },
     queue,
     SubmitAction.generate (jsTrim st.inputValue))

/-- The queued-prompt drain of `_loadModels` (chat component lines 700-714):
take and clear the queue; if it is non-empty, process only the FIRST
prompt ("For MVP, just process the first one") by clearing the loading
state, writing it into the input and calling `_submitPrompt`. -/
def processQueued (st : ChatState) (queue : List String) (llmLoaded : Bool) :
    ChatState × List String × Option SubmitAction :=
  match (getQueuedPrompts queue).1 with
  | [] => (st, (getQueuedPrompts queue).2, none)
  | first :: _ =>
      ((submitPrompt { st with isGenerating := false, inputValue := first }
          (getQueuedPrompts queue).2 llmLoaded).1,
       (submitPrompt { st with isGenerating := false, inputValue := first }
          (getQueuedPrompts queue).2 llmLoaded).2.1,
       some (submitPrompt { st with isGenerating := false, inputValue := first }
          (getQueuedPrompts queue).2 llmLoaded).2.2)

/-! ## Streaming, cancellation and the save path

`generateTokens` (model-manager.js lines 169-226) splits the model's text
into words and yields `words[i] + (i < words.length - 1 ? ' ' : '')`,
checking the abort signal at the top of each iteration.  The consumer
(`_generateResponse`, chat component lines 462-556) accumulates the
yielded tokens and, when the generator finishes — normally or by the
silent post-abort `break` — runs the completion code unconditionally:
it stores the accumulated text, moves to `response-visible`, and saves
the conversation whenever the accumulated text is non-empty.
-/

/-- The token sequence `generateTokens` yields for a word list
(model-manager.js line 215). -/
def tokenStream (words : List String) : List String :=
  words.enum.map (fun x => x.2 ++ if x.1 < words.length - 1 then " " else "")

/-- How many tokens reach the consumer.  `cancelAfter = none`: no
cancellation, all tokens are delivered.  `cancelAfter = some n`: the
abort signal was raised while the consumer awaited a token, after `n`
tokens had been (or were about to be) yielded — the generator's abort
check runs at the top of each iteration, so a token whose check had
already passed is still yielded after the abort, and the next iteration
breaks. -/
def deliveredCount (words : List String) (cancelAfter : Option Nat) : Nat :=
  match cancelAfter with
  | none => (tokenStream words).length
  | some n => min n (tokenStream words).length

/-- The tokens the consumer accumulates. -/
def deliveredTokens (words : List String) (cancelAfter : Option Nat) : List String :=
  (tokenStream words).take (deliveredCount words cancelAfter)

/-- `fullResponse` at loop exit (chat component lines 468-508). -/
def fullResponseOf (words : List String) (cancelAfter : Option Nat) : String :=
  String.join (deliveredTokens words cancelAfter)

/-- Session state after the streaming loop and the unconditional completion
code (chat component lines 483-517), with the `_cancelGeneration` handler
interleaved when a cancellation occurred: the handler's effects
(lines 561-579) are applied first, then any still-pending token repaints
the response area, and completion sets `currentResponse`, clears
`isGenerating` and moves to `response-visible`. -/
def postStreamState (st : ChatState) (words : List String) (cancelAfter : Option Nat) :
    ChatState :=
  { (if (cancelAfter : Option Nat).isSome then cancelGenerationState st else st) with
      responseText := fullResponseOf words cancelAfter
      currentResponse := fullResponseOf words cancelAfter
      isGenerating := false
      visibility := Visibility.responseVisible }

/-- The record `_saveConversation` builds (chat component lines 622-629):
`id` and `timestamp` both taken at `Date.now()`, `modelVersion` fixed. -/
def mkConversationPair (nowId : Nat) (prompt response : String) (emb : List Float) :
    ConversationPair :=
  { id := nowId
    prompt := prompt
    response := response
    embedding := some emb
    modelVersion := "mvp-mock"
    timestamp := nowId }

/-- Result of `_saveConversation`. -/
structure OrchSaveResult where
  saved : Bool
  store : Store
  count : Nat
  outcome : Option SaveOutcome
  warned : Bool

/-- `_saveConversation` (chat component lines 616-649): generate an
embedding for the prompt — an exception from `generateEmbedding` is
swallowed by the surrounding catch and the record is NOT saved — then
build the record and call `storage.saveConversation`; on success the
conversation count is incremented, a quota failure is only warned about,
any other failure is logged; in every failure case `false` is returned. -/
def orchSaveConversation (store : Store) (count : Nat) (prompt response : String)
    (nowId : Nat) (embLoaded : Bool) (embResult : Except String (List Float)) :
    OrchSaveResult :=
  match generateEmbedding embLoaded embResult with
  | (Except.error _, w) =>
      { saved := false, store := store, count := count, outcome := none, warned := w }
  | (Except.ok emb, w) =>
      match saveConversation store (mkConversationPair nowId prompt response emb) nowId with
      | (store2, SaveOutcome.ok) =>
          { saved := true, store := store2, count := count + 1
            outcome := some SaveOutcome.ok, warned := w }
      | (store2, res) =>
          { saved := false, store := store2, count := count
            outcome := some res, warned := w }

/-- Observable result of one `_generateResponse` run. -/
structure RunResult where
  state : ChatState
  store : Store
  conversationCount : Nat
  gatewayCancelInvoked : Bool
  savedRecord : Bool
  saveOutcome : Option SaveOutcome
  embedWarned : Bool

/-- One full `_generateResponse` run (chat component lines 462-531) on the
exception-free path, with an optional user cancellation interleaved:
stream the tokens (possibly cut short by the abort signal), apply the
cancel handler's and the completion code's state effects, and save the
conversation exactly when the accumulated response is non-empty
(`fullResponse.trim().length > 0`, line 521). -/
def generateResponseRun (prompt : String) (st : ChatState) (store : Store) (count : Nat)
    (words : List String) (cancelAfter : Option Nat) (nowId : Nat)
    (embLoaded : Bool) (embResult : Except String (List Float)) : RunResult :=
  if 0 < (jsTrim (fullResponseOf words cancelAfter)).length then
    { state := postStreamState st words cancelAfter
      store := (orchSaveConversation store count prompt (fullResponseOf words cancelAfter)
                  nowId embLoaded embResult).store
      conversationCount := (orchSaveConversation store count prompt
                  (fullResponseOf words cancelAfter) nowId embLoaded embResult).count
      gatewayCancelInvoked := cancelAfter.isSome
      savedRecord := (orchSaveConversation store count prompt
                  (fullResponseOf words cancelAfter) nowId embLoaded embResult).saved
      saveOutcome := (orchSaveConversation store count prompt
                  (fullResponseOf words cancelAfter) nowId embLoaded embResult).outcome
      embedWarned := (orchSaveConversation store count prompt
                  (fullResponseOf words cancelAfter) nowId embLoaded embResult).warned }
  else
    { state := postStreamState st words cancelAfter
      store := store
      conversationCount := count
      gatewayCancelInvoked := cancelAfter.isSome
      savedRecord := false
      saveOutcome := none
      embedWarned := false }

/-- The session state right after an accepted `submit` of `"ping"` with the
model loaded. -/
def submittedPingState : ChatState :=
  (submitPrompt { initialChatState with
                    visibility := Visibility.inputVisible, inputValue := "ping" }
     [] true).1

/-- An all-`'a'` string of the given length, for boundary inputs. -/
def repA (n : Nat) : String := ⟨List.replicate n 'a'⟩

/-! ## Helper lemmas -/

theorem dropWhile_ws_replicate_a (n : Nat) :
    List.dropWhile Char.isWhitespace (List.replicate n 'a') = List.replicate n 'a' := by
  cases n with
  | zero => rfl
  | succ m => rw [List.replicate_succ, List.dropWhile_cons_of_neg (by decide)]

theorem trimChars_replicate_a (n : Nat) :
    trimChars (List.replicate n 'a') = List.replicate n 'a' := by
  unfold trimChars
  rw [dropWhile_ws_replicate_a, List.reverse_replicate, dropWhile_ws_replicate_a,
    List.reverse_replicate]

theorem jsTrim_repA (n : Nat) : jsTrim (repA n) = repA n := by
  unfold jsTrim repA
  rw [show (String.mk (List.replicate n 'a')).data = List.replicate n 'a' from rfl,
    trimChars_replicate_a]

theorem repA_length (n : Nat) : (repA n).length = n := by
  unfold repA
  rw [show (String.mk (List.replicate n 'a')).length = (List.replicate n 'a').length from rfl,
    List.length_replicate]

theorem repA_ne_empty (n : Nat) (h : 0 < n) : repA n ≠ "" := by
  intro hEq
  have hlen := congrArg String.length hEq
  rw [repA_length] at hlen
  simp at hlen
  omega

/-- Characterization of `validateConversationPair`: it succeeds exactly when
all the field conditions of `checksOk` hold. -/
theorem validate_ok_iff (p : ConversationPair) (now : Nat) :
    validateConversationPair p now = Except.ok () ↔ checksOk p now := by
  unfold validateConversationPair checksOk otherChecksOk
  split_ifs with h1 h2 h3 h4 h5 h6 h7 h8 <;> simp_all <;> omega

/-! ## Claims -/

/-- C1: `saveConversation` validates every field of the record (nonzero
numeric id, prompt trimming to 1-10,000 characters, response trimming to
1-100,000 characters, non-empty model version, timestamp not later than
the moment of validation, plus the embedding-dimension check) before any
write is attempted: whenever any check fails, the result is a validation
error and the store is returned untouched; in particular a record whose
response trims to empty is never persisted. -/
theorem save_validates_before_write (store : Store) (p : ConversationPair) (now : Nat) :
    (validateConversationPair p now = Except.ok () ↔ checksOk p now)
  ∧ (¬ checksOk p now →
        (saveConversation store p now).1 = store
        ∧ ∃ msg, (saveConversation store p now).2 = SaveOutcome.validationError msg)
  ∧ (jsTrim p.response = "" →
        (saveConversation store p now).1 = store
        ∧ ∃ msg, (saveConversation store p now).2 = SaveOutcome.validationError msg) := by
  have hiff := validate_ok_iff p now
  have main : ¬ checksOk p now →
      (saveConversation store p now).1 = store
      ∧ ∃ msg, (saveConversation store p now).2 = SaveOutcome.validationError msg := by
    intro hno
    have hv : ∃ msg, validateConversationPair p now = Except.error msg := by
      cases hval : validateConversationPair p now with
      | ok u => exact absurd (hiff.1 (by rw [hval])) hno
      | error msg => exact ⟨msg, rfl⟩
    obtain ⟨msg, hmsg⟩ := hv
    unfold saveConversation
    rw [hmsg]
    exact ⟨rfl, msg, rfl⟩
  refine ⟨hiff, main, ?_⟩
  intro hresp
  refine main ?_
  intro hc
  have hlen := hc.1.2.2.2.2.2.1
  rw [hresp] at hlen
  have : ("" : String).length = 0 := rfl
  omega

/-- A record whose response is whitespace only, for the C1 witness. -/
def blankResponsePair : ConversationPair :=
  { id := 1, prompt := "ping", response := "   ", embedding := none
    modelVersion := "mvp-mock", timestamp := 500 }

/-- An empty store with no quota limit. -/
def emptyStore : Store := { records := [], quota := none }

theorem save_validates_before_write_witness :
    jsTrim blankResponsePair.response = ""
  ∧ ((saveConversation emptyStore blankResponsePair 1000).1 = emptyStore
     ∧ ∃ msg, (saveConversation emptyStore blankResponsePair 1000).2
          = SaveOutcome.validationError msg) :=
  ⟨by decide, (save_validates_before_write emptyStore blankResponsePair 1000).2.2 (by decide)⟩

/-- C2: evaluation of the cancellation path at a failing input.  The session
is `generating` with `currentPrompt = "ping"`; the model emits one token
`"pong"`; the user cancels while that token is pending, so the gateway's
cancel is invoked — but the token is still delivered (the generator's
abort check had already passed), the streaming loop then finishes
normally, and the unconditional completion code persists a record with
the partial response and moves the session to `response-visible`.  The
prompt itself is preserved. -/
theorem cancelled_generation_still_persists_record :
    (generateResponseRun "ping" submittedPingState emptyStore 0 ["pong"] (some 1) 1000 false
        (Except.ok [])).gatewayCancelInvoked = true
  ∧ (generateResponseRun "ping" submittedPingState emptyStore 0 ["pong"] (some 1) 1000 false
        (Except.ok [])).savedRecord = true
  ∧ (generateResponseRun "ping" submittedPingState emptyStore 0 ["pong"] (some 1) 1000 false
        (Except.ok [])).store.records.length = 1
  ∧ (generateResponseRun "ping" submittedPingState emptyStore 0 ["pong"] (some 1) 1000 false
        (Except.ok [])).state.visibility = Visibility.responseVisible
  ∧ (generateResponseRun "ping" submittedPingState emptyStore 0 ["pong"] (some 1) 1000 false
        (Except.ok [])).state.currentPrompt = "ping" := by
  refine ⟨by decide, by decide, by decide, by decide, by decide⟩

/-- C3 counterexample: with `generationTimeoutMs = 1000` and an underlying
stream that never produces another fragment and never completes, the
timeout wrapper never cancels the stream and never surfaces a `Timeout`
error — the consumer is simply left waiting, because the elapsed-time
check only runs when a fragment arrives. -/
theorem timeout_without_fragments_never_fires :
    withTimeoutRun 1000 [] false = (StreamOutcome.pending [], false)
  ∧ ∀ d, (withTimeoutRun 1000 [] false).1 ≠ StreamOutcome.timedOut d := by
  refine ⟨by decide, ?_⟩
  intro d h
  rw [show (withTimeoutRun 1000 [] false).1 = StreamOutcome.pending [] from rfl] at h
  exact StreamOutcome.noConfusion h

theorem withTimeoutGo_cons (timeoutMs : Nat) (completes : Bool) (t : Nat) (tok : String)
    (rest : List (Nat × String)) (acc : List String) :
    withTimeoutGo timeoutMs completes ((t, tok) :: rest) acc
      = if timeoutMs < t then (StreamOutcome.timedOut acc, true)
        else withTimeoutGo timeoutMs completes rest (acc ++ [tok]) := by
  rfl

theorem withTimeoutGo_late (timeoutMs : Nat) (completes : Bool) (t : Nat) (tok : String)
    (rest : List (Nat × String)) :
    ∀ (pre : List (Nat × String)) (acc : List String),
      (∀ x ∈ pre, x.1 ≤ timeoutMs) → timeoutMs < t →
      withTimeoutGo timeoutMs completes (pre ++ (t, tok) :: rest) acc
        = (StreamOutcome.timedOut (acc ++ pre.map Prod.snd), true) := by
  intro pre
  induction pre with
  | nil =>
      intro acc _ ht
      simp [withTimeoutGo, if_pos ht]
  | cons hd tl ih =>
      intro acc hpre ht
      obtain ⟨t0, tok0⟩ := hd
      have h0 : ¬ timeoutMs < t0 := by
        have := hpre (t0, tok0) (List.mem_cons_self _ _)
        omega
      have htl : ∀ x ∈ tl, x.1 ≤ timeoutMs := fun x hx => hpre x (List.mem_cons_of_mem _ hx)
      rw [List.cons_append, withTimeoutGo_cons, if_neg h0, ih (acc ++ [tok0]) htl ht]
      simp

/-- C3 (amended): the timeout wrapper enforces the budget only at fragment
boundaries.  If the fragments received before some fragment all arrive
within `timeoutMs` of the first pull and that fragment arrives strictly
later than `timeoutMs`, the wrapper cancels the underlying stream and
surfaces the `Timeout` error, delivering only the earlier fragments —
regardless of whatever would follow.  (When no further fragment ever
arrives, no `Timeout` is surfaced; see the counterexample.) -/
theorem timeout_fires_at_fragment_boundary (timeoutMs : Nat) (completes : Bool)
    (pre : List (Nat × String)) (t : Nat) (tok : String) (rest : List (Nat × String))
    (hpre : ∀ x ∈ pre, x.1 ≤ timeoutMs) (ht : timeoutMs < t) :
    withTimeoutRun timeoutMs (pre ++ (t, tok) :: rest) completes
      = (StreamOutcome.timedOut (pre.map Prod.snd), true) := by
  unfold withTimeoutRun
  rw [withTimeoutGo_late timeoutMs completes t tok rest pre [] hpre ht]
  simp

theorem timeout_fires_at_fragment_boundary_witness :
    ((∀ x ∈ [((5 : Nat), "a")], x.1 ≤ 1000) ∧ 1000 < 1001)
  ∧ withTimeoutRun 1000 [(5, "a"), (1001, "b")] false
      = (StreamOutcome.timedOut ["a"], true) :=
  ⟨⟨by decide, by decide⟩,
   timeout_fires_at_fragment_boundary 1000 false [(5, "a")] 1001 "b" [] (by decide) (by decide)⟩

/-- C4 counterexample: two prompts are queued in order while the model is
not ready, but the drain step of `_loadModels` submits only the first
one and clears the queue, so the second queued prompt is dropped —
refuting "no queued prompt is dropped". -/
theorem second_queued_prompt_dropped :
    queuePrompt (queuePrompt [] "a") "b" = ["a", "b"]
  ∧ processQueued initialChatState ["a", "b"] true = processQueued initialChatState ["a"] true
  ∧ (processQueued initialChatState ["a", "b"] true).2.1 = []
  ∧ (processQueued initialChatState ["a", "b"] true).2.2 = some (SubmitAction.generate "a") :=
  ⟨rfl, rfl, by decide, by decide⟩

/-- C4 (amended): prompts submitted while the gateway is not ready are
appended to an ordered queue, but once readiness is reached only the
FIRST queued prompt is processed: it is auto-submitted through
`_submitPrompt` (streaming starts without a second submit call) and the
whole queue is cleared, so any later queued prompts are discarded — the
drain result does not depend on them at all. -/
theorem queue_drain_processes_first_only (st : ChatState) (first : String)
    (rest rest' : List String)
    (h1 : jsTrim first ≠ "") (h2 : (jsTrim first).length ≤ 10000) :
    processQueued st (first :: rest) true = processQueued st (first :: rest') true
  ∧ (processQueued st (first :: rest) true).2.1 = []
  ∧ (processQueued st (first :: rest) true).2.2
      = some (SubmitAction.generate (jsTrim first)) := by
  have hno : ¬ 10000 < (jsTrim first).length := by omega
  refine ⟨rfl, ?_, ?_⟩ <;>
    simp [processQueued, getQueuedPrompts, submitPrompt, h1, hno]

theorem queue_drain_processes_first_only_witness :
    (jsTrim "hi" ≠ "" ∧ (jsTrim "hi").length ≤ 10000)
  ∧ ((processQueued initialChatState ["hi", "x"] true).2.1 = []
     ∧ (processQueued initialChatState ["hi", "x"] true).2.2
         = some (SubmitAction.generate (jsTrim "hi"))) :=
  ⟨⟨by decide, by decide⟩,
   ⟨(queue_drain_processes_first_only initialChatState "hi" ["x"] [] (by decide)
       (by decide)).2.1,
    (queue_drain_processes_first_only initialChatState "hi" ["x"] [] (by decide)
       (by decide)).2.2⟩⟩

/-- The session showing the input with a 10,001-character prompt typed in. -/
def overlongSubmitState : ChatState :=
  { initialChatState with visibility := Visibility.inputVisible, inputValue := repA 10001 }

/-- C5 counterexample: submitting a prompt of 10,001 characters from
`input-visible` does NOT leave the session in `input-visible` — the
rejection goes through `_showError`, which sets the error message and
moves visibility to `response-visible`.  This refutes "no state
transition occurs". -/
theorem overlong_prompt_transitions_to_error_state :
    (submitPrompt overlongSubmitState [] true).1.visibility = Visibility.responseVisible
  ∧ (submitPrompt overlongSubmitState [] true).2.2 = SubmitAction.errorShown
  ∧ (submitPrompt overlongSubmitState [] true).1.errorMessage
      = some "Prompt too long (max 10,000 characters)"
  ∧ Visibility.responseVisible ≠ Visibility.inputVisible := by
  have hin : overlongSubmitState.inputValue = repA 10001 := rfl
  have hne : jsTrim overlongSubmitState.inputValue ≠ "" := by
    rw [hin, jsTrim_repA]
    exact repA_ne_empty _ (by norm_num)
  have hlen : 10000 < (jsTrim overlongSubmitState.inputValue).length := by
    rw [hin, jsTrim_repA, repA_length]
    norm_num
  refine ⟨?_, ?_, ?_, by decide⟩ <;>
    · simp only [submitPrompt]
      rw [if_neg hne, if_pos hlen]
      try simp [showError]

/-- C5 (amended): submission validation.  An input that trims to empty is
silently ignored — no transition, no error surfaced.  An input whose
trimmed length exceeds 10,000 characters is rejected through
`_showError`, surfacing a validation error and transitioning to
`response-visible` (not staying in `input-active`).  Any other input is
accepted (so exactly 10,000 characters is accepted and 10,001 is
rejected): the session moves to `generating` and the prompt is either
generated immediately or queued behind model loading. -/
theorem submit_validation_behavior (st : ChatState) (queue : List String) (llmLoaded : Bool) :
    (jsTrim st.inputValue = "" →
       submitPrompt st queue llmLoaded = (st, queue, SubmitAction.ignored))
  ∧ (10000 < (jsTrim st.inputValue).length → jsTrim st.inputValue ≠ "" →
       submitPrompt st queue llmLoaded
         = (showError st "Prompt too long (max 10,000 characters)", queue,
            SubmitAction.errorShown)
       ∧ (submitPrompt st queue llmLoaded).1.visibility = Visibility.responseVisible)
  ∧ (jsTrim st.inputValue ≠ "" → (jsTrim st.inputValue).length ≤ 10000 →
       (submitPrompt st queue llmLoaded).1.visibility = Visibility.generating
       ∧ (submitPrompt st queue llmLoaded).2.2
           = (if llmLoaded then SubmitAction.generate (jsTrim st.inputValue)
              else SubmitAction.enqueued (jsTrim st.inputValue))) := by
  refine ⟨?_, ?_, ?_⟩
  · intro h
    simp only [submitPrompt]
    rw [if_pos h]
  · intro hlen hne
    constructor <;>
      · simp only [submitPrompt]
        rw [if_neg hne, if_pos hlen]
        try simp [showError]
  · intro hne hle
    have hno : ¬ 10000 < (jsTrim st.inputValue).length := by omega
    cases llmLoaded <;>
      · constructor <;>
          · simp only [submitPrompt]
            rw [if_neg hne, if_neg hno]
            try simp

/-- The session showing the input with a 10,000-character prompt typed in
(the accepted boundary). -/
def boundarySubmitState : ChatState :=
  { initialChatState with visibility := Visibility.inputVisible, inputValue := repA 10000 }

theorem submit_validation_behavior_witness :
    (jsTrim boundarySubmitState.inputValue ≠ ""
     ∧ (jsTrim boundarySubmitState.inputValue).length ≤ 10000)
  ∧ ((submitPrompt boundarySubmitState [] true).1.visibility = Visibility.generating
     ∧ (submitPrompt boundarySubmitState [] true).2.2
         = SubmitAction.generate (jsTrim boundarySubmitState.inputValue)) := by
  have hin : boundarySubmitState.inputValue = repA 10000 := rfl
  have hne : jsTrim boundarySubmitState.inputValue ≠ "" := by
    rw [hin, jsTrim_repA]
    exact repA_ne_empty _ (by norm_num)
  have hle : (jsTrim boundarySubmitState.inputValue).length ≤ 10000 := by
    rw [hin, jsTrim_repA, repA_length]
  exact ⟨⟨hne, hle⟩, (submit_validation_behavior boundarySubmitState [] true).2.2 hne hle⟩

/-- C6: a save failing at the storage layer on the quota condition returns
the distinguishable `QuotaExceededError` result (not a generic failure)
rather than throwing; and when a generation completes successfully over
a full store, the response is still displayed (`response-visible`,
`currentResponse` set) while no record is persisted and the conversation
count is unchanged. -/
theorem quota_failure_distinguishable_and_nonblocking (store : Store) (count : Nat)
    (st : ChatState) (prompt : String) (words : List String) (nowId now : Nat)
    (p : ConversationPair) :
    (validateConversationPair p now = Except.ok () → storeFull store = true →
        saveConversation store p now = (store, SaveOutcome.quotaExceeded quotaMsg))
  ∧ (storeFull store = true →
     checksOk (mkConversationPair nowId prompt (fullResponseOf words none) fallbackEmbedding)
        nowId →
       (generateResponseRun prompt st store count words none nowId false
           (Except.ok [])).state.visibility = Visibility.responseVisible
     ∧ (generateResponseRun prompt st store count words none nowId false
           (Except.ok [])).state.currentResponse = fullResponseOf words none
     ∧ (generateResponseRun prompt st store count words none nowId false
           (Except.ok [])).savedRecord = false
     ∧ (generateResponseRun prompt st store count words none nowId false
           (Except.ok [])).saveOutcome = some (SaveOutcome.quotaExceeded quotaMsg)
     ∧ (generateResponseRun prompt st store count words none nowId false
           (Except.ok [])).store = store
     ∧ (generateResponseRun prompt st store count words none nowId false
           (Except.ok [])).conversationCount = count) := by
  constructor
  · intro hv hf
    unfold saveConversation
    rw [hv]
    simp [hf]
  · intro hf hchecks
    have hpos : 0 < (jsTrim (fullResponseOf words none)).length := hchecks.1.2.2.2.2.2.1
    have hvalid : validateConversationPair
        (mkConversationPair nowId prompt (fullResponseOf words none) fallbackEmbedding) nowId
        = Except.ok () := (validate_ok_iff _ _).2 hchecks
    have horch : orchSaveConversation store count prompt (fullResponseOf words none) nowId
        false (Except.ok [])
        = { saved := false, store := store, count := count
            outcome := some (SaveOutcome.quotaExceeded quotaMsg), warned := true } := by
      simp [orchSaveConversation, generateEmbedding, saveConversation, hvalid, hf]
    refine ⟨?_, ?_, ?_, ?_, ?_, ?_⟩ <;>
      simp [generateResponseRun, hpos, postStreamState, horch]

/-- A store that is already at its quota. -/
def fullStore : Store := { records := [], quota := some 0 }

theorem quota_failure_distinguishable_and_nonblocking_witness :
    (storeFull fullStore = true
     ∧ checksOk (mkConversationPair 1000 "ping" (fullResponseOf ["pong"] none)
          fallbackEmbedding) 1000)
  ∧ ((generateResponseRun "ping" submittedPingState fullStore 0 ["pong"] none 1000 false
        (Except.ok [])).savedRecord = false
     ∧ (generateResponseRun "ping" submittedPingState fullStore 0 ["pong"] none 1000 false
        (Except.ok [])).saveOutcome = some (SaveOutcome.quotaExceeded quotaMsg)
     ∧ (generateResponseRun "ping" submittedPingState fullStore 0 ["pong"] none 1000 false
        (Except.ok [])).store = fullStore
     ∧ (generateResponseRun "ping" submittedPingState fullStore 0 ["pong"] none 1000 false
        (Except.ok [])).state.visibility = Visibility.responseVisible) := by
  have h1 : storeFull fullStore = true := by decide
  have h2 : checksOk (mkConversationPair 1000 "ping" (fullResponseOf ["pong"] none)
      fallbackEmbedding) 1000 := by decide
  have main := (quota_failure_distinguishable_and_nonblocking fullStore 0 submittedPingState
    "ping" ["pong"] 1000 1000 (mkConversationPair 1000 "ping" (fullResponseOf ["pong"] none)
      fallbackEmbedding)).2 h1 h2
  exact ⟨⟨h1, h2⟩, main.2.2.1, main.2.2.2.1, main.2.2.2.2.1, main.1⟩

/-- C7 counterexample: when the embedding pipeline is loaded but fails, the
`_saveConversation` catch swallows the rethrown error and returns
`false` without ever calling the storage layer — the record is NOT
persisted, refuting "a failure of the embedding capability does not
block persistence". -/
theorem embedding_pipeline_failure_blocks_save :
    (orchSaveConversation emptyStore 0 "ping" "pong" 1000 true
        (Except.error "inference failed")).saved = false
  ∧ (orchSaveConversation emptyStore 0 "ping" "pong" 1000 true
        (Except.error "inference failed")).store.records = []
  ∧ (orchSaveConversation emptyStore 0 "ping" "pong" 1000 true
        (Except.error "inference failed")).count = 0 :=
  ⟨rfl, rfl, rfl⟩

/-- C7 (amended): only the embedding-model-not-loaded failure mode is
non-blocking — a random 384-dimension fallback vector is substituted
with a warning and the record is persisted WITH that mock vector, and
the conversation count is incremented.  When the loaded embedding
pipeline itself fails, the error aborts `_saveConversation`: nothing is
persisted and the count is unchanged. -/
theorem embedding_fallback_and_failure_paths (store : Store) (count : Nat)
    (prompt response : String) (nowId : Nat) (msg : String)
    (hchecks : checksOk (mkConversationPair nowId prompt response fallbackEmbedding) nowId)
    (hfull : storeFull store = false)
    (hdup : store.records.any (fun r => r.id == nowId) = false) :
    (orchSaveConversation store count prompt response nowId false (Except.ok [])).saved = true
  ∧ (orchSaveConversation store count prompt response nowId false (Except.ok [])).warned = true
  ∧ (orchSaveConversation store count prompt response nowId false
        (Except.ok [])).store.records
      = store.records ++ [mkConversationPair nowId prompt response fallbackEmbedding]
  ∧ (orchSaveConversation store count prompt response nowId false (Except.ok [])).count
      = count + 1
  ∧ (orchSaveConversation store count prompt response nowId true (Except.error msg)).saved
      = false
  ∧ (orchSaveConversation store count prompt response nowId true (Except.error msg)).store
      = store
  ∧ (orchSaveConversation store count prompt response nowId true (Except.error msg)).count
      = count := by
  have hvalid : validateConversationPair
      (mkConversationPair nowId prompt response fallbackEmbedding) nowId = Except.ok () :=
    (validate_ok_iff _ _).2 hchecks
  have hdup2 : ¬ ∃ x ∈ store.records, x.id = nowId := by
    rw [List.any_eq_false] at hdup
    push_neg
    intro x hx
    have hb := hdup x hx
    simpa using hb
  have horch : orchSaveConversation store count prompt response nowId false (Except.ok [])
      = { saved := true
          store := { store with
            records := store.records
              ++ [mkConversationPair nowId prompt response fallbackEmbedding] }
          count := count + 1, outcome := some SaveOutcome.ok, warned := true } := by
    have hvalid2 := hvalid
    simp only [mkConversationPair] at hvalid2
    simp [orchSaveConversation, generateEmbedding, saveConversation, hvalid2, hfull,
      mkConversationPair, hdup2]
  refine ⟨?_, ?_, ?_, ?_, rfl, rfl, rfl⟩ <;> rw [horch]

theorem embedding_fallback_and_failure_paths_witness :
    (checksOk (mkConversationPair 1000 "ping" "pong" fallbackEmbedding) 1000
     ∧ storeFull emptyStore = false
     ∧ emptyStore.records.any (fun r => r.id == 1000) = false)
  ∧ ((orchSaveConversation emptyStore 0 "ping" "pong" 1000 false (Except.ok [])).saved = true
     ∧ (orchSaveConversation emptyStore 0 "ping" "pong" 1000 false (Except.ok [])).warned
         = true
     ∧ (orchSaveConversation emptyStore 0 "ping" "pong" 1000 false (Except.ok [])).count
         = 0 + 1) := by
  have h1 : checksOk (mkConversationPair 1000 "ping" "pong" fallbackEmbedding) 1000 := by
    decide
  have h2 : storeFull emptyStore = false := by decide
  have h3 : emptyStore.records.any (fun r => r.id == 1000) = false := by decide
  have main := embedding_fallback_and_failure_paths emptyStore 0 "ping" "pong" 1000 "x"
    h1 h2 h3
  exact ⟨⟨h1, h2, h3⟩, main.1, main.2.1, main.2.2.2.1⟩

/-- An otherwise-valid record carrying the given embedding vector. -/
def basePairWith (e : List Float) : ConversationPair :=
  { id := 1, prompt := "ping", response := "pong", embedding := some e
    modelVersion := "mvp-mock", timestamp := 500 }

/-- C8 counterexample: validation hard-codes a single dimensionality.  For
an otherwise-valid record, NO embedding whose length differs from 384
passes validation — there is no "small set" of accepted
dimensionalities and no accepted dimensionality other than the one
fixed value. -/
theorem no_alternative_dimensionality_accepted :
    ¬ ∃ e : List Float, e.length ≠ 384
        ∧ validateConversationPair (basePairWith e) 1000 = Except.ok () := by
  rintro ⟨e, hne, hok⟩
  have hbad := ((validate_ok_iff _ _).1 hok).2
  simp [basePairWith, embeddingBad] at hbad
  exact hne hbad

/-- C8 (amended): `validateConversationPair` accepts a record carrying an
embedding exactly when the other field checks pass AND the vector's
length is exactly 384 — the dimensionality is a single hard-coded
value. -/
theorem embedding_dimension_hardcoded (p : ConversationPair) (now : Nat) (e : List Float)
    (h : p.embedding = some e) :
    validateConversationPair p now = Except.ok ()
      ↔ (otherChecksOk p now ∧ e.length = 384) := by
  rw [validate_ok_iff]
  unfold checksOk
  rw [h]
  simp [embeddingBad]

theorem embedding_dimension_hardcoded_witness :
    (basePairWith fallbackEmbedding).embedding = some fallbackEmbedding
  ∧ validateConversationPair (basePairWith fallbackEmbedding) 1000 = Except.ok () :=
  ⟨rfl, (embedding_dimension_hardcoded (basePairWith fallbackEmbedding) 1000
      fallbackEmbedding rfl).2 ⟨by decide, by simp [fallbackEmbedding]⟩⟩

/-- C9: `clearHistory` is unconditional and idempotent: it returns the
number of records removed; on an empty store it returns 0 and leaves the
store unchanged (no error — the model's clear path is total); and
running it twice leaves the store exactly as one run does, the second
run removing 0 records. -/
theorem clearHistory_unconditional_idempotent (s : Store) :
    (clearHistory s).2 = s.records.length
  ∧ (s.records = [] → clearHistory s = (s, 0))
  ∧ (clearHistory (clearHistory s).1).1 = (clearHistory s).1
  ∧ (clearHistory (clearHistory s).1).2 = 0 := by
  refine ⟨rfl, ?_, rfl, rfl⟩
  intro h
  cases s with
  | mk records quota =>
      cases h
      rfl

theorem clearHistory_unconditional_idempotent_witness :
    emptyStore.records = [] ∧ clearHistory emptyStore = (emptyStore, 0) :=
  ⟨rfl, (clearHistory_unconditional_idempotent emptyStore).2.1 rfl⟩

/-- C10: the public `hide()` is unconditional — from any state, including
`generating`, it transitions to `hidden`, clears `currentPrompt`,
`currentResponse` and `errorMessage`, and never invokes the gateway's
cancel.  The not-generating guard lives only on the event paths: while
generating, Escape is routed to `_cancelGeneration` (which DOES invoke
the gateway's cancel) and an outside click does nothing. -/
theorem hide_unconditional_no_cancel (st : ChatState) :
    (hideOp st).1.visibility = Visibility.hidden
  ∧ (hideOp st).1.currentPrompt = ""
  ∧ (hideOp st).1.currentResponse = ""
  ∧ (hideOp st).1.errorMessage = none
  ∧ (hideOp st).2 = false
  ∧ (st.isGenerating = true → st.visibility = Visibility.generating →
       handleKeyboard st KeyEvent.escape = (cancelGenerationState st, true)
       ∧ handleClickOutside st false = (st, false)) := by
  refine ⟨rfl, rfl, rfl, rfl, rfl, ?_⟩
  intro hg hv
  constructor
  · simp [handleKeyboard, hv, hg]
  · simp [handleClickOutside, hg]

/-- A session in the middle of a generation. -/
def generatingState : ChatState :=
  { initialChatState with
      visibility := Visibility.generating
      isGenerating := true
      currentPrompt := "ping" }

theorem hide_unconditional_no_cancel_witness :
    (generatingState.isGenerating = true
     ∧ generatingState.visibility = Visibility.generating)
  ∧ (handleKeyboard generatingState KeyEvent.escape
       = (cancelGenerationState generatingState, true)
     ∧ handleClickOutside generatingState false = (generatingState, false)) :=
  ⟨⟨rfl, rfl⟩, (hide_unconditional_no_cancel generatingState).2.2.2.2.2 rfl rfl⟩
